import Mathlib

/-!
Shallow embedding of the `one-time-pad` Rust crate (`src/lib.rs`).

Byte vectors (`Vec<u8>`) are modelled as `List Nat` whose elements stand for
bytes; the only arithmetic the transform performs is `u8` XOR, which never
leaves `[0, 255]` when its arguments are bytes, so `Nat.xor` embeds it exactly
with no overflow reduction needed. The Rust `error_check` aborts via `panic!`
with a single fixed message; the embedding makes that abort explicit as the
`Except.error` branch carrying the panic message, so a caller of `operate`
observes exactly what the Rust caller observes: normal return, or one
indistinguishable abort. The external `getrandom` crate (the OS entropy
source) is not part of this repository; it is modelled as an oracle
parameter: either the source fails, or it supplies a byte for each index and
fills the caller's buffer in place, which cannot change the buffer's length.
-/

/-- The message of the `panic!` in `error_check` (src/lib.rs line 73). -/
def panicMessage : String := "Buffer lengths do not match or cannot be zero"

/-- Embedding of `fn error_check(buf_a: &Vec<u8>, buf_b: &Vec<u8>)`
(src/lib.rs lines 71-75): returns the panic message when the check fires,
`none` when control returns normally. -/
def error_check (buf_a buf_b : List Nat) : Option String :=
  if buf_a.length ≠ buf_b.length ∨ buf_a.length = 0 ∨ buf_b.length = 0 then
    some panicMessage
  else
    none

/-- Embedding of `fn operate(pad_buffer: &Vec<u8>, data_buffer: &Vec<u8>) -> Vec<u8>`
(src/lib.rs lines 59-69): runs `error_check`, then zips the two buffers with
byte-wise XOR. The Rust panic is the `Except.error` branch. -/
def operate (pad_buffer data_buffer : List Nat) : Except String (List Nat) :=
  match error_check pad_buffer data_buffer with
  | some msg => Except.error msg
  | none => Except.ok (List.zipWith Nat.xor pad_buffer data_buffer)

/-- Failure of the external entropy source (`getrandom::Error`), the
`RandomSourceError` of the specification. -/
inductive GetrandomError where
  | randomSourceError
deriving DecidableEq, Repr

/-- An entropy oracle: `none` means the OS entropy source fails; `some f`
means the source yields byte `f i % 256` for the i-th position it fills. -/
def EntropyOracle : Type := Option (Nat → Nat)

/-- Model of `getrandom::getrandom(&mut arr)`: on success it overwrites each
byte of the caller's buffer in place with a byte from the source, leaving the
buffer's length unchanged (a Rust slice fill cannot resize); on failure it
returns the error. -/
def getrandomFill (oracle : EntropyOracle) (buf : List Nat) :
    Except GetrandomError (List Nat) :=
  match oracle with
  | none => Except.error GetrandomError.randomSourceError
  | some f => Except.ok (buf.mapIdx fun i _ => f i % 256)

namespace OneTimePad

/-- Embedding of `OneTimePad::encrypt` (src/lib.rs lines 20-22):
`return operate(pad_buffer, plain_text_buffer);`. -/
def encrypt (pad_buffer plain_text_buffer : List Nat) : Except String (List Nat) :=
  operate pad_buffer plain_text_buffer

/-- Embedding of `OneTimePad::decrypt` (src/lib.rs lines 34-36):
`return operate(pad_buffer, encrypted_data_buffer);`. -/
def decrypt (pad_buffer encrypted_data_buffer : List Nat) : Except String (List Nat) :=
  operate pad_buffer encrypted_data_buffer

/-- Embedding of `OneTimePad::generate_random_pad` (src/lib.rs lines 47-52):
allocates `vec![0; length]`, fills it from the entropy source (propagating the
source's error with `?`), and returns the filled buffer. -/
def generate_random_pad (length : Nat) (oracle : EntropyOracle) :
    Except GetrandomError (List Nat) :=
  match getrandomFill oracle (List.replicate length 0) with
  | Except.error e => Except.error e
  | Except.ok arr => Except.ok arr

end OneTimePad

/-- A byte sequence is all-zero when every element is `0` (used to state the
spec's non-degeneracy side conditions). -/
def allZero (l : List Nat) : Bool :=
  l.all fun b => b = 0

/-! ## Helper lemmas -/

/-- XOR-ing twice with the same value is the identity, element-wise. -/
lemma xor_cancel_left (x y : Nat) : Nat.xor x (Nat.xor x y) = y := by
  show x ^^^ (x ^^^ y) = y
  rw [← Nat.xor_assoc, Nat.xor_self, Nat.zero_xor]

/-- XOR-ing twice with the same pad recovers the data, list-wise. -/
lemma zipWith_xor_cancel (a b : List Nat) (h : a.length = b.length) :
    List.zipWith Nat.xor a (List.zipWith Nat.xor a b) = b := by
  induction a generalizing b with
  | nil => simpa using (List.length_eq_zero.mp h.symm).symm
  | cons x xs ih =>
    cases b with
    | nil => simp at h
    | cons y ys =>
      simp only [List.length_cons, Nat.add_right_cancel_iff] at h
      simp only [List.zipWith, xor_cancel_left, List.cons.injEq, true_and]
      exact ih ys h

/-- Byte-wise XOR of lists is commutative. -/
lemma zipWith_xor_comm (a b : List Nat) :
    List.zipWith Nat.xor a b = List.zipWith Nat.xor b a := by
  induction a generalizing b with
  | nil => cases b <;> simp
  | cons x xs ih =>
    cases b with
    | nil => simp
    | cons y ys =>
      simp only [List.zipWith, List.cons.injEq]
      exact ⟨Nat.xor_comm x y, ih ys⟩

/-- `operate` written as a single conditional, unfolding `error_check`. -/
lemma operate_eq (p d : List Nat) :
    operate p d =
      if p.length ≠ d.length ∨ p.length = 0 ∨ d.length = 0 then
        Except.error panicMessage
      else
        Except.ok (List.zipWith Nat.xor p d) := by
  unfold operate error_check
  by_cases h : p.length ≠ d.length ∨ p.length = 0 ∨ d.length = 0
  · simp only [if_pos h]
  · simp only [if_neg h]

/-- Characterization of successful `operate` calls: success happens exactly on
equal nonzero lengths, and the output is the byte-wise XOR. -/
lemma operate_ok_iff (p d out : List Nat) :
    operate p d = Except.ok out ↔
      p.length = d.length ∧ p.length ≠ 0 ∧ out = List.zipWith Nat.xor p d := by
  rw [operate_eq]
  by_cases h : p.length ≠ d.length ∨ p.length = 0 ∨ d.length = 0
  · rw [if_pos h]
    constructor
    · intro hc; exact absurd hc (by simp)
    · rintro ⟨h1, h2, _⟩
      rcases h with h | h | h
      · exact absurd h1 h
      · exact absurd h h2
      · exact absurd (h1 ▸ h) h2
  · rw [if_neg h]
    push_neg at h
    obtain ⟨h1, h2, _⟩ := h
    constructor
    · intro hc
      injection hc with hc
      exact ⟨h1, h2, hc.symm⟩
    · rintro ⟨_, _, rfl⟩
      rfl

/-- A list XOR-ed against equals itself exactly when the other operand is
all-zero (equal lengths assumed). -/
lemma zipWith_xor_eq_right (a b : List Nat) (h : a.length = b.length) :
    List.zipWith Nat.xor a b = b ↔ allZero a = true := by
  induction a generalizing b with
  | nil =>
    have hb : b = [] := List.length_eq_zero.mp h.symm
    subst hb
    simp [allZero]
  | cons x xs ih =>
    cases b with
    | nil => simp at h
    | cons y ys =>
      simp only [List.length_cons, Nat.add_right_cancel_iff] at h
      simp only [List.zipWith, List.cons.injEq, allZero, List.all_cons,
        Bool.and_eq_true, decide_eq_true_eq]
      constructor
      · rintro ⟨hx, hys⟩
        refine ⟨?_, (allZero xs = true) |> fun _ => ?_⟩
        · have : x = Nat.xor (Nat.xor x y) y := by
            show x = x ^^^ y ^^^ y
            rw [Nat.xor_assoc, Nat.xor_self, Nat.xor_zero]
          rw [this, hx]
          exact Nat.xor_self y
        · have := (ih ys h).mp hys
          simpa [allZero] using this
      · rintro ⟨hx, hxs⟩
        subst hx
        refine ⟨Nat.zero_xor y, ?_⟩
        exact (ih ys h).mpr (by simpa [allZero] using hxs)

/-! ## Claim theorems -/

/-- Claim C1: for every pad `P` and plaintext `X` of equal nonzero length,
decrypting with the same pad the ciphertext produced by `encrypt P X`
recovers `X` exactly (the XOR transform is an involution). -/
theorem decrypt_encrypt_involution (P X C : List Nat)
    (hlen : P.length = X.length) (hnz : P.length ≠ 0)
    (henc : OneTimePad.encrypt P X = Except.ok C) :
    OneTimePad.decrypt P C = Except.ok X := by
  unfold OneTimePad.encrypt at henc
  unfold OneTimePad.decrypt
  obtain ⟨_, _, rfl⟩ := (operate_ok_iff P X C).mp henc
  refine (operate_ok_iff P _ X).mpr ⟨?_, hnz, (zipWith_xor_cancel P X hlen).symm⟩
  rw [List.length_zipWith, hlen, Nat.min_self]

/-- Witness for C1 at pad `[7,6,5]`, plaintext `[1,2,3]`. -/
theorem decrypt_encrypt_involution_witness :
    OneTimePad.encrypt [7, 6, 5] [1, 2, 3] = Except.ok [6, 4, 6] ∧
    OneTimePad.decrypt [7, 6, 5] [6, 4, 6] = Except.ok [1, 2, 3] :=
  ⟨rfl, decrypt_encrypt_involution [7, 6, 5] [1, 2, 3] [6, 4, 6] rfl (by decide) rfl⟩

/-- Claim C2: every successful `operate` call (hence both `encrypt` and
`decrypt`) returns an output of the common input length whose byte at every
index `i` is `pad[i] XOR data[i]`. -/
theorem operate_pointwise_xor (pad data out : List Nat)
    (h : operate pad data = Except.ok out) :
    out.length = pad.length ∧ out.length = data.length ∧
      ∀ i, (ho : i < out.length) → (hp : i < pad.length) → (hd : i < data.length) →
        out.get ⟨i, ho⟩ = Nat.xor (pad.get ⟨i, hp⟩) (data.get ⟨i, hd⟩) := by
  obtain ⟨hlen, _, rfl⟩ := (operate_ok_iff pad data out).mp h
  refine ⟨?_, ?_, ?_⟩
  · rw [List.length_zipWith, hlen, Nat.min_self]
  · rw [List.length_zipWith, hlen, Nat.min_self]
  · intro i ho hp hd
    simp [List.get_eq_getElem, List.getElem_zipWith]

/-- Witness for C2 at pad `[1,2]`, data `[3,4]`, output `[2,6]`, index `0`. -/
theorem operate_pointwise_xor_witness :
    (([2, 6] : List Nat)).get ⟨0, by decide⟩ =
      Nat.xor ((([1, 2] : List Nat)).get ⟨0, by decide⟩)
        ((([3, 4] : List Nat)).get ⟨0, by decide⟩) :=
  (operate_pointwise_xor [1, 2] [3, 4] [2, 6] rfl).2.2 0 (by decide) (by decide)
    (by decide)

/-- Claim C3 counterexample: the code signals both invalid-length conditions
with one and the same panic; the mismatched-length input `([7,6,5], [1,2])`
and the empty input `([], [])` fail with an identical error value, so the two
failure modes are not distinct errors as the claim states. -/
theorem mismatch_and_empty_same_error :
    OneTimePad.encrypt [7, 6, 5] [1, 2] = Except.error panicMessage ∧
    OneTimePad.encrypt [] [] = Except.error panicMessage :=
  ⟨rfl, rfl⟩

/-- Claim C3 (amended): whenever `len(pad) != len(data)` or either buffer is
empty, `encrypt` and `decrypt` fail before any computation with the single
undifferentiated panic message, producing no output; mismatch and emptiness
are not distinguished. -/
theorem invalid_input_single_panic (pad data : List Nat)
    (h : pad.length ≠ data.length ∨ pad.length = 0 ∨ data.length = 0) :
    OneTimePad.encrypt pad data = Except.error panicMessage ∧
    OneTimePad.decrypt pad data = Except.error panicMessage := by
  unfold OneTimePad.encrypt OneTimePad.decrypt
  rw [operate_eq, if_pos h]
  exact ⟨rfl, rfl⟩

/-- Witness for the amended C3 at the mismatched input `([7,6,5], [1,2])`. -/
theorem invalid_input_single_panic_witness :
    OneTimePad.encrypt [7, 6, 5] [1, 2] = Except.error panicMessage ∧
    OneTimePad.decrypt [7, 6, 5] [1, 2] = Except.error panicMessage :=
  invalid_input_single_panic [7, 6, 5] [1, 2] (by decide)

/-- Claim C4: the known test vector — encrypting plaintext
`[0,0,0,1,1,1,255,255,255]` with pad `[0,1,255,0,1,255,0,1,255]` yields
exactly `[0,1,255,1,0,254,255,254,0]`. -/
theorem encrypt_known_vector :
    OneTimePad.encrypt [0, 1, 255, 0, 1, 255, 0, 1, 255]
        [0, 0, 0, 1, 1, 1, 255, 255, 255] =
      Except.ok [0, 1, 255, 1, 0, 254, 255, 254, 0] :=
  rfl

/-- Claim C5: `encrypt` and `decrypt` are the identical operation on every
input pair — equal outputs and equal failures, since both delegate to
`operate`. -/
theorem encrypt_eq_decrypt (pad data : List Nat) :
    OneTimePad.encrypt pad data = OneTimePad.decrypt pad data :=
  rfl

/-- Claim C6: every successful `encrypt` or `decrypt` call returns an output
whose length equals the common length of the two inputs. -/
theorem output_length_preserved (pad data out : List Nat)
    (h : OneTimePad.encrypt pad data = Except.ok out ∨
      OneTimePad.decrypt pad data = Except.ok out) :
    out.length = pad.length ∧ out.length = data.length := by
  have hop : operate pad data = Except.ok out := by
    rcases h with h | h <;> exact h
  obtain ⟨hlen, _, rfl⟩ := (operate_ok_iff pad data out).mp hop
  constructor
  · rw [List.length_zipWith, hlen, Nat.min_self]
  · rw [List.length_zipWith, hlen, Nat.min_self]

/-- Witness for C6 at pad `[9,8,7]`, data `[1,2,3]`. -/
theorem output_length_preserved_witness :
    ([8, 10, 4] : List Nat).length = ([9, 8, 7] : List Nat).length ∧
    ([8, 10, 4] : List Nat).length = ([1, 2, 3] : List Nat).length :=
  output_length_preserved [9, 8, 7] [1, 2, 3] [8, 10, 4] (Or.inl rfl)

/-- Claim C7: a successful `generate_random_pad length` call returns exactly
`length` bytes, for every length and every entropy oracle. -/
theorem generate_random_pad_length (length : Nat) (oracle : EntropyOracle)
    (pad : List Nat)
    (h : OneTimePad.generate_random_pad length oracle = Except.ok pad) :
    pad.length = length := by
  unfold OneTimePad.generate_random_pad getrandomFill at h
  match oracle with
  | none => exact absurd h (by simp)
  | some f =>
    injection h with h
    rw [← h, List.length_mapIdx, List.length_replicate]

/-- Witness for C7 at length `3` with the identity oracle. -/
theorem generate_random_pad_length_witness :
    ([0, 1, 2] : List Nat).length = 3 :=
  generate_random_pad_length 3 (some fun i => i) [0, 1, 2] rfl

/-- Claim C8: `generate_random_pad` has no length-related failure — with a
working entropy source it succeeds for every length, its only failure is the
entropy source's own error, and length `0` yields the empty sequence rather
than an error. -/
theorem generate_random_pad_only_source_failure (length : Nat) (f : Nat → Nat) :
    (OneTimePad.generate_random_pad length (some f)).isOk = true ∧
    OneTimePad.generate_random_pad length none =
      Except.error GetrandomError.randomSourceError ∧
    OneTimePad.generate_random_pad 0 (some f) = Except.ok [] :=
  ⟨rfl, rfl, rfl⟩

/-- Claim C9 counterexample: with pad `[0]` and plaintext `[5]` — nonzero
length, not identical, and not both all-zero — `encrypt` returns the
plaintext unchanged, and symmetrically with pad `[5]` and plaintext `[0]` it
returns the pad; the claim's non-degeneracy side condition does not exclude
these inputs. -/
theorem encrypt_identity_on_nondegenerate_input :
    (([0] : List Nat) ≠ [5] ∧ ¬(allZero [0] = true ∧ allZero [5] = true) ∧
      OneTimePad.encrypt [0] [5] = Except.ok [5]) ∧
    (([5] : List Nat) ≠ [0] ∧ ¬(allZero [5] = true ∧ allZero [0] = true) ∧
      OneTimePad.encrypt [5] [0] = Except.ok [5]) :=
  ⟨⟨by decide, by decide, rfl⟩, ⟨by decide, by decide, rfl⟩⟩

/-- Claim C9 (amended): for equal nonzero lengths, the ciphertext differs
from the plaintext whenever the pad is not all-zero, and differs from the pad
whenever the plaintext is not all-zero. -/
theorem encrypt_non_identity (P X C : List Nat)
    (hlen : P.length = X.length) (_hnz : P.length ≠ 0)
    (henc : OneTimePad.encrypt P X = Except.ok C) :
    (allZero P = false → C ≠ X) ∧ (allZero X = false → C ≠ P) := by
  unfold OneTimePad.encrypt at henc
  obtain ⟨_, _, rfl⟩ := (operate_ok_iff P X C).mp henc
  constructor
  · intro hP hC
    have : allZero P = true := (zipWith_xor_eq_right P X hlen).mp hC
    rw [this] at hP
    exact absurd hP (by simp)
  · intro hX hC
    rw [zipWith_xor_comm] at hC
    have : allZero X = true := (zipWith_xor_eq_right X P hlen.symm).mp hC
    rw [this] at hX
    exact absurd hX (by simp)

/-- Witness for the amended C9 at pad `[1]`, plaintext `[2]`,
ciphertext `[3]`. -/
theorem encrypt_non_identity_witness :
    ([3] : List Nat) ≠ [2] ∧ ([3] : List Nat) ≠ [1] :=
  ⟨(encrypt_non_identity [1] [2] [3] rfl (by decide) rfl).1 (by decide),
   (encrypt_non_identity [1] [2] [3] rfl (by decide) rfl).2 (by decide)⟩

/-- Claim C10: the transform is commutative in its two arguments — for equal
nonzero lengths, swapping the roles of pad and data yields the same output. -/
theorem encrypt_comm (a b : List Nat)
    (hlen : a.length = b.length) (hnz : a.length ≠ 0) :
    OneTimePad.encrypt a b = OneTimePad.encrypt b a := by
  unfold OneTimePad.encrypt
  rw [operate_eq, operate_eq]
  have hcond : ¬(a.length ≠ b.length ∨ a.length = 0 ∨ b.length = 0) := by
    push_neg
    exact ⟨hlen, hnz, hlen ▸ hnz⟩
  have hcond2 : ¬(b.length ≠ a.length ∨ b.length = 0 ∨ a.length = 0) := by
    push_neg
    exact ⟨hlen.symm, hlen ▸ hnz, hnz⟩
  rw [if_neg hcond, if_neg hcond2, zipWith_xor_comm]

/-- Witness for C10 at `[1,2]` and `[3,4]`. -/
theorem encrypt_comm_witness :
    OneTimePad.encrypt [1, 2] [3, 4] = OneTimePad.encrypt [3, 4] [1, 2] :=
  encrypt_comm [1, 2] [3, 4] rfl (by decide)
